import Mathlib

/-!
Shallow embedding of the t2play panel's render-and-dispatch core
(`src/main.c`).  Text measurement (Pango `get_text_size`) and the
formatted clock string (`strftime` of `localtime`) are external
capabilities; they are passed to the layout functions as parameters
`m : String → Nat` (pixel width of a string, nonnegative) and
`clockStr : String`, exactly as `cairo` is threaded through the C code.
C strings such as `panel_items` are modelled as `List Char`
(a possibly-NULL pointer as `Option (List Char)`); pixel offsets and
widths are `Int`, mirroring the C `int` arithmetic on values far from
overflow.
-/

namespace T2play

/-- `#define BUTTON_PADDING 8` (src/main.c:51). -/
def BUTTON_PADDING : Int := 8

/-- `#define BUTTON_MAX_WIDTH 200` (src/main.c:52). -/
def BUTTON_MAX_WIDTH : Int := 200

/-- `struct toplevel` (src/main.c:54): the fields the render/dispatch
core reads.  `title`/`app_id` are nullable C strings. -/
structure Toplevel where
  title : Option String
  app_id : Option String
  active : Bool
  deriving DecidableEq, Repr

/-- `struct widget` (src/main.c:63): `toplevel` is NULL for non-taskbar
widgets. -/
structure Widget where
  x : Int
  width : Int
  toplevel : Option Toplevel
  deriving DecidableEq, Repr

/-- The label fallback expression
`toplevel->title ? toplevel->title : (toplevel->app_id ? toplevel->app_id : "?")`
(src/main.c:276-277, 308-309). -/
def toplevel_label (t : Toplevel) : String :=
  match t.title with
  | some s => s
  | none =>
    match t.app_id with
    | some s => s
    | none => "?"

/-- Button width computation shared by `taskbar_natural_width` and
`render_taskbar` (src/main.c:281-284, 315-318):
`btn_width = text_width + 2*BUTTON_PADDING`, capped at
`BUTTON_MAX_WIDTH`. -/
def button_width (m : String → Nat) (t : Toplevel) : Int :=
  let bw : Int := (m (toplevel_label t) : Int) + 2 * BUTTON_PADDING
  if bw > BUTTON_MAX_WIDTH then BUTTON_MAX_WIDTH else bw

/-- `taskbar_natural_width` (src/main.c:270-288): starts at
`BUTTON_PADDING` and adds `btn_width + BUTTON_PADDING` per tracked
window, in registry order. -/
def taskbar_natural_width (m : String → Nat) (tops : List Toplevel) : Int :=
  tops.foldl (fun total t => total + (button_width m t + BUTTON_PADDING)) BUTTON_PADDING

/-- `clock_natural_width` (src/main.c:290-300): measured "HH:MM" text
width plus `2*BUTTON_PADDING`. -/
def clock_natural_width (m : String → Nat) (clockStr : String) : Int :=
  (m clockStr : Int) + 2 * BUTTON_PADDING

/-- The loop body of `render_taskbar` (src/main.c:305-342): starting at
`start_x + BUTTON_PADDING`, emit one widget per tracked window and
advance by `btn_width + BUTTON_PADDING`.  Returns the widgets appended
in order together with the final cursor `x`. -/
def render_taskbar_go (m : String → Nat) : List Toplevel → Int → List Widget × Int
  | [], x => ([], x)
  | t :: rest, x =>
    let bw := button_width m t
    let res := render_taskbar_go m rest (x + bw + BUTTON_PADDING)
    (⟨x, bw, some t⟩ :: res.1, res.2)

/-- `render_taskbar` (src/main.c:302-344): returns `x - start_x`, the
horizontal space consumed. -/
def render_taskbar (m : String → Nat) (tops : List Toplevel) (start_x : Int) :
    List Widget × Int :=
  let res := render_taskbar_go m tops (start_x + BUTTON_PADDING)
  (res.1, res.2 - start_x)

/-- `render_clock` (src/main.c:346-365): one widget with NULL toplevel,
width `text_width + 2*BUTTON_PADDING`; returns that width. -/
def render_clock (m : String → Nat) (clockStr : String) (start_x : Int) :
    List Widget × Int :=
  let w := (m clockStr : Int) + 2 * BUTTON_PADDING
  ([⟨start_x, w, none⟩], w)

/-- The x coordinate at which the clock text is drawn:
`cairo_move_to(cairo, start_x + BUTTON_PADDING, ...)` (src/main.c:362). -/
def clock_text_x (start_x : Int) : Int :=
  start_x + BUTTON_PADDING

/-- One iteration of the fixed-width accumulation loop of
`render_to_cairo` (src/main.c:381-387): `'T'` adds the taskbar natural
width, `'C'` the clock natural width, all other codes add nothing. -/
def natural_item_width (m : String → Nat) (clockStr : String) (tops : List Toplevel)
    (c : Char) : Int :=
  if c = 'T' then taskbar_natural_width m tops
  else if c = 'C' then clock_natural_width m clockStr
  else 0

/-- The spacer-width computation of `render_to_cairo`
(src/main.c:377-392): `0` when no `'S'` occurs; otherwise
`(int)panel->width - fixed_width`, clamped below at `0`. -/
def spacer_width (m : String → Nat) (clockStr : String) (tops : List Toplevel)
    (items : List Char) (panel_width : Nat) : Int :=
  if 'S' ∈ items then
    let fixed := items.foldl (fun fw c => fw + natural_item_width m clockStr tops c) 0
    let sw := (panel_width : Int) - fixed
    if sw < 0 then 0 else sw
  else 0

/-- The layout loop of `render_to_cairo` (src/main.c:394-405): walk the
item codes left to right with a cursor `x`; `'T'` and `'C'` emit widgets
and advance by the consumed width, `'S'` advances by the precomputed
spacer width, unknown codes are logged and skipped. -/
def render_items (m : String → Nat) (clockStr : String) (tops : List Toplevel)
    (sw : Int) : List Char → Int → List Widget
  | [], _ => []
  | c :: rest, x =>
    if c = 'T' then
      let res := render_taskbar m tops x
      res.1 ++ render_items m clockStr tops sw rest (x + res.2)
    else if c = 'C' then
      let res := render_clock m clockStr x
      res.1 ++ render_items m clockStr tops sw rest (x + res.2)
    else if c = 'S' then
      render_items m clockStr tops sw rest (x + sw)
    else
      render_items m clockStr tops sw rest x

/-- The widget list produced by one `render_to_cairo` pass
(src/main.c:367-406): empty when `panel_items` is NULL, otherwise the
layout loop starting at `x = 0` with the once-per-pass spacer width. -/
def render_to_cairo_widgets (m : String → Nat) (clockStr : String)
    (panel_items : Option (List Char)) (tops : List Toplevel)
    (panel_width : Nat) : List Widget :=
  match panel_items with
  | none => []
  | some items =>
    render_items m clockStr tops (spacer_width m clockStr tops items panel_width)
      items 0

/-- The panel fields the render/dispatch core reads and writes
(`struct panel`, src/main.c:106-151). -/
structure PanelSt where
  run_display : Bool
  width : Nat
  height : Nat
  panel_items : Option (List Char)
  toplevels : List Toplevel
  widgets : List Widget
  deriving DecidableEq, Repr

/-- The state effect of `render_to_cairo` (src/main.c:367-411):
`widgets_free` discards the previous widget list, then the layout loop
rebuilds it from scratch. -/
def render_to_cairo_st (m : String → Nat) (clockStr : String) (p : PanelSt) :
    PanelSt :=
  { p with widgets :=
      render_to_cairo_widgets m clockStr p.panel_items p.toplevels p.width }

/-- `render_frame` (src/main.c:413-418): returns immediately when
`!panel->run_display || !panel->width || !panel->height`. -/
def render_frame (m : String → Nat) (clockStr : String) (p : PanelSt) : PanelSt :=
  if p.run_display = false ∨ p.width = 0 ∨ p.height = 0 then p
  else render_to_cairo_st m clockStr p

/-- An axis-aligned rectangle as passed to `cairo_rectangle`. -/
structure Rect where
  x : Int
  y : Int
  w : Int
  h : Int
  deriving DecidableEq, Repr

/-- The separator rectangle drawn at the end of `render_to_cairo`:
`cairo_rectangle(cairo, 0, panel->height, panel->width, 1)`
(src/main.c:409). -/
def separator_rect (p : PanelSt) : Rect :=
  ⟨0, (p.height : Int), (p.width : Int), 1⟩

/-- `WL_POINTER_BUTTON_STATE_PRESSED` from the wayland protocol. -/
def WL_POINTER_BUTTON_STATE_PRESSED : Nat := 1

/-- `WL_POINTER_BUTTON_STATE_RELEASED` from the wayland protocol. -/
def WL_POINTER_BUTTON_STATE_RELEASED : Nat := 0

/-- The externally visible effect of a press: activating a toplevel via
`zwlr_foreign_toplevel_handle_v1_activate` (src/main.c:842-843). -/
inductive Action where
  | activate (t : Toplevel)
  deriving DecidableEq, Repr

/-- The hit-test scan of `wl_pointer_button` (src/main.c:838-847): first
widget whose `[x, x+width)` interval contains the press coordinate; if
it has a toplevel, activate it, otherwise do nothing; stop either way. -/
def dispatch_scan (x : Int) : List Widget → Option Action
  | [] => none
  | w :: rest =>
    if w.x ≤ x ∧ x < w.x + w.width then
      match w.toplevel with
      | some t => some (Action.activate t)
      | none => none
    else dispatch_scan x rest

/-- `wl_pointer_button` (src/main.c:825-848): non-press events return
without action; a press hit-tests the stored coordinate against the
most recent widget list. -/
def wl_pointer_button (state : Nat) (x : Int) (widgets : List Widget) :
    Option Action :=
  if state ≠ WL_POINTER_BUTTON_STATE_PRESSED then none
  else dispatch_scan x widgets

/-- `ZWLR_FOREIGN_TOPLEVEL_HANDLE_V1_STATE_ACTIVATED` from the
wlr-foreign-toplevel-management protocol. -/
def ZWLR_STATE_ACTIVATED : Nat := 2

/-- `handle_toplevel_state` (src/main.c:521-534): reset `active` to
`false`, then scan the delivered flag array, setting it when the
activated flag is seen. -/
def handle_toplevel_state (t : Toplevel) (state : List Nat) : Toplevel :=
  { t with active :=
      (state.foldl (fun acc e => if e = ZWLR_STATE_ACTIVATED then true else acc)
        false) }

/-- The `struct itimerspec` fields set for the clock timer. -/
structure ClockTimer where
  it_interval_sec : Int
  it_value_sec : Int
  deriving DecidableEq, Repr

/-- The clock-timer arming logic in `panel_setup` (src/main.c:1151-1165):
armed only when `panel_items` is non-NULL and contains `'C'`; first
absolute expiry `now.tv_sec - (now.tv_sec % 60) + 60` (C `%` is
truncated, `Int.tmod`), interval 60 seconds. -/
def arm_clock_timer (panel_items : Option (List Char)) (now_sec : Int) :
    Option ClockTimer :=
  match panel_items with
  | some items =>
    if 'C' ∈ items then
      some ⟨60, now_sec - now_sec.tmod 60 + 60⟩
    else none
  | none => none

/-- A tracked window titled "Editor", as in the end-to-end scenario. -/
def editorWindow : Toplevel := ⟨some "Editor", none, false⟩

/-- A clock-like widget (NULL toplevel) used in concrete instances. -/
def demoClockWidget : Widget := ⟨0, 10, none⟩

/-- A taskbar-button widget used in concrete instances. -/
def demoEditorWidget : Widget := ⟨10, 5, some editorWindow⟩

/-- A panel before its first nonzero configure: width still 0, with a
leftover widget for illustration. -/
def unconfiguredPanel : PanelSt := ⟨true, 0, 30, some ['T'], [], [⟨0, 5, none⟩]⟩

/-! ### Helper lemmas -/

theorem dispatch_scan_eq_none (x : Int) :
    ∀ ws : List Widget, (∀ w ∈ ws, ¬ (w.x ≤ x ∧ x < w.x + w.width)) →
      dispatch_scan x ws = none := by
  intro ws
  induction ws with
  | nil => intro _; rfl
  | cons w rest ih =>
    intro h
    have hw := h w (List.mem_cons_self w rest)
    simp only [dispatch_scan, if_neg hw]
    exact ih fun u hu => h u (List.mem_cons_of_mem _ hu)

theorem dispatch_scan_skip (x : Int) :
    ∀ pre ws : List Widget, (∀ u ∈ pre, ¬ (u.x ≤ x ∧ x < u.x + u.width)) →
      dispatch_scan x (pre ++ ws) = dispatch_scan x ws := by
  intro pre
  induction pre with
  | nil => intro ws _; rfl
  | cons u rest ih =>
    intro ws h
    have hu := h u (List.mem_cons_self u rest)
    simp only [List.cons_append, dispatch_scan, if_neg hu]
    exact ih ws fun v hv => h v (List.mem_cons_of_mem _ hv)

theorem dispatch_scan_hit (x : Int) (w : Widget) (rest : List Widget)
    (h : w.x ≤ x ∧ x < w.x + w.width) :
    dispatch_scan x (w :: rest) = w.toplevel.map Action.activate := by
  simp only [dispatch_scan, if_pos h]
  cases w.toplevel <;> rfl

theorem state_fold_iff :
    ∀ (st : List Nat) (b : Bool),
      (st.foldl (fun acc e => if e = ZWLR_STATE_ACTIVATED then true else acc) b
          = true
        ↔ b = true ∨ ZWLR_STATE_ACTIVATED ∈ st) := by
  intro st
  induction st with
  | nil => intro b; simp
  | cons e rest ih =>
    intro b
    by_cases h : e = ZWLR_STATE_ACTIVATED
    · simp only [List.foldl_cons, if_pos h]
      rw [ih true]
      simp [List.mem_cons, h]
    · simp only [List.foldl_cons, if_neg h]
      rw [ih b]
      have hne : ZWLR_STATE_ACTIVATED ≠ e := fun hx => h hx.symm
      simp [List.mem_cons, hne]

theorem foldl_add_sum {α : Type} (f : α → Int) :
    ∀ (l : List α) (a : Int),
      l.foldl (fun acc t => acc + f t) a = a + (l.map f).sum := by
  intro l
  induction l with
  | nil => intro a; simp
  | cons t rest ih =>
    intro a
    simp only [List.foldl_cons, List.map_cons, List.sum_cons]
    rw [ih]
    ring

theorem taskbar_natural_width_eq (m : String → Nat) (tops : List Toplevel) :
    taskbar_natural_width m tops =
      BUTTON_PADDING +
        (tops.map (fun t => button_width m t + BUTTON_PADDING)).sum := by
  unfold taskbar_natural_width
  exact foldl_add_sum (fun t => button_width m t + BUTTON_PADDING) tops BUTTON_PADDING

theorem button_width_nonneg (m : String → Nat) (t : Toplevel) :
    0 ≤ button_width m t := by
  simp only [button_width, BUTTON_PADDING, BUTTON_MAX_WIDTH]
  split <;> omega

theorem button_width_eq_min (m : String → Nat) (t : Toplevel) :
    button_width m t =
      min ((m (toplevel_label t) : Int) + 2 * BUTTON_PADDING) BUTTON_MAX_WIDTH := by
  simp only [button_width]
  split
  · rename_i h
    rw [min_eq_right (le_of_lt h)]
  · rename_i h
    rw [min_eq_left (not_lt.mp h)]

theorem render_taskbar_go_widths (m : String → Nat) :
    ∀ (tops : List Toplevel) (x : Int),
      (render_taskbar_go m tops x).1.map Widget.width = tops.map (button_width m) := by
  intro tops
  induction tops with
  | nil => intro x; rfl
  | cons t rest ih =>
    intro x
    simp only [render_taskbar_go, List.map_cons]
    rw [ih]

theorem render_taskbar_go_toplevels (m : String → Nat) :
    ∀ (tops : List Toplevel) (x : Int),
      (render_taskbar_go m tops x).1.map Widget.toplevel = tops.map some := by
  intro tops
  induction tops with
  | nil => intro x; rfl
  | cons t rest ih =>
    intro x
    simp only [render_taskbar_go, List.map_cons]
    rw [ih]

theorem render_taskbar_go_final (m : String → Nat) :
    ∀ (tops : List Toplevel) (x : Int),
      (render_taskbar_go m tops x).2 =
        x + (tops.map (fun t => button_width m t + BUTTON_PADDING)).sum := by
  intro tops
  induction tops with
  | nil => intro x; simp [render_taskbar_go]
  | cons t rest ih =>
    intro x
    simp only [render_taskbar_go, List.map_cons, List.sum_cons]
    rw [ih]
    ring

theorem render_taskbar_go_bounds (m : String → Nat) :
    ∀ (tops : List Toplevel) (x : Int),
      (∀ w ∈ (render_taskbar_go m tops x).1,
        x ≤ w.x ∧ 0 ≤ w.width ∧
          w.x + w.width + BUTTON_PADDING ≤ (render_taskbar_go m tops x).2) ∧
      x ≤ (render_taskbar_go m tops x).2 := by
  intro tops
  induction tops with
  | nil =>
    intro x
    exact ⟨fun w hw => absurd hw (List.not_mem_nil w), le_refl x⟩
  | cons t rest ih =>
    intro x
    have hbw := button_width_nonneg m t
    have hp : (0 : Int) ≤ BUTTON_PADDING := by decide
    obtain ⟨ihb, ihx⟩ := ih (x + button_width m t + BUTTON_PADDING)
    constructor
    · intro w hw
      simp only [render_taskbar_go] at hw
      rcases List.mem_cons.mp hw with h | h
      · subst h
        refine ⟨le_refl _, hbw, ?_⟩
        simp only [render_taskbar_go]
        exact ihx
      · obtain ⟨h1, h2, h3⟩ := ihb w h
        refine ⟨by omega, h2, ?_⟩
        simp only [render_taskbar_go]
        exact h3
    · simp only [render_taskbar_go]
      omega

theorem render_taskbar_go_chain (m : String → Nat) :
    ∀ (tops : List Toplevel) (x : Int),
      List.Chain' (fun a b => b.x = a.x + a.width + BUTTON_PADDING)
        (render_taskbar_go m tops x).1 := by
  intro tops
  induction tops with
  | nil => intro x; exact List.chain'_nil
  | cons t rest ih =>
    intro x
    simp only [render_taskbar_go]
    rw [List.chain'_cons']
    refine ⟨?_, ih _⟩
    intro y hy
    cases rest with
    | nil => simp [render_taskbar_go] at hy
    | cons t2 rest2 =>
      simp only [render_taskbar_go, List.head?_cons, Option.mem_def,
        Option.some.injEq] at hy
      subst hy
      rfl

theorem render_taskbar_go_pairwise (m : String → Nat) :
    ∀ (tops : List Toplevel) (x : Int),
      List.Pairwise (fun a b => a.x + a.width ≤ b.x)
        (render_taskbar_go m tops x).1 := by
  intro tops
  induction tops with
  | nil => intro x; exact List.Pairwise.nil
  | cons t rest ih =>
    intro x
    simp only [render_taskbar_go]
    rw [List.pairwise_cons]
    refine ⟨?_, ih _⟩
    intro b hb
    have hbnd :=
      ((render_taskbar_go_bounds m rest (x + button_width m t + BUTTON_PADDING)).1
        b hb).1
    have hp : (0 : Int) ≤ BUTTON_PADDING := by decide
    dsimp only
    omega

theorem render_taskbar_width_natural (m : String → Nat) (tops : List Toplevel)
    (start_x : Int) :
    (render_taskbar m tops start_x).2 = taskbar_natural_width m tops := by
  unfold render_taskbar
  dsimp only
  rw [render_taskbar_go_final, taskbar_natural_width_eq]
  ring

theorem natural_width_filter_sum (m : String → Nat) (clockStr : String)
    (tops : List Toplevel) :
    ∀ items : List Char,
      (items.map (natural_item_width m clockStr tops)).sum =
      ((items.filter fun c => c == 'T' || c == 'C').map
        (natural_item_width m clockStr tops)).sum := by
  intro items
  induction items with
  | nil => rfl
  | cons c rest ih =>
    by_cases hT : c = 'T'
    · subst hT
      simp only [List.map_cons, List.sum_cons, List.filter_cons]
      norm_num
      rw [ih]
    · by_cases hC : c = 'C'
      · subst hC
        simp only [List.map_cons, List.sum_cons, List.filter_cons]
        norm_num
        rw [ih]
      · have h0 : natural_item_width m clockStr tops c = 0 := by
          simp [natural_item_width, hT, hC]
        have hpred : (c == 'T' || c == 'C') = false := by
          simp [hT, hC]
        simp only [List.map_cons, List.sum_cons, List.filter_cons, hpred, h0,
          Bool.false_eq_true, if_false, zero_add]
        exact ih

theorem spacer_width_eq (m : String → Nat) (clockStr : String)
    (tops : List Toplevel) (items : List Char) (panel_width : Nat)
    (hS : 'S' ∈ items) :
    spacer_width m clockStr tops items panel_width =
      max 0 ((panel_width : Int) -
        (items.map (natural_item_width m clockStr tops)).sum) := by
  simp only [spacer_width, if_pos hS]
  rw [foldl_add_sum (natural_item_width m clockStr tops) items 0, zero_add]
  split
  · rename_i h
    rw [max_eq_left (le_of_lt h)]
  · rename_i h
    rw [max_eq_right (not_lt.mp h)]

theorem spacer_width_nonneg (m : String → Nat) (clockStr : String)
    (tops : List Toplevel) (items : List Char) (panel_width : Nat) :
    0 ≤ spacer_width m clockStr tops items panel_width := by
  by_cases hS : 'S' ∈ items
  · rw [spacer_width_eq m clockStr tops items panel_width hS]
    exact le_max_left 0 _
  · simp [spacer_width, hS]

/-! ### Claims -/

/-- Claim C2: for every pointer-button event, an action is invoked only in
the pressed state; a press scans the widget list left to right, stops at
the first widget whose interval contains the stored x, activates its
window iff it is a taskbar button, and does nothing when no widget
matches. -/
theorem C2_pointer_button_dispatch (state : Nat) (x : Int) (ws : List Widget) :
    (state ≠ WL_POINTER_BUTTON_STATE_PRESSED →
      wl_pointer_button state x ws = none) ∧
    ((∀ w ∈ ws, ¬ (w.x ≤ x ∧ x < w.x + w.width)) →
      wl_pointer_button state x ws = none) ∧
    (∀ pre w rest, ws = pre ++ w :: rest →
      (∀ u ∈ pre, ¬ (u.x ≤ x ∧ x < u.x + u.width)) →
      (w.x ≤ x ∧ x < w.x + w.width) →
      wl_pointer_button WL_POINTER_BUTTON_STATE_PRESSED x ws =
        w.toplevel.map Action.activate) := by
  refine ⟨fun h => ?_, fun h => ?_, fun pre w rest hws hpre hw => ?_⟩
  · simp [wl_pointer_button, h]
  · unfold wl_pointer_button
    split
    · rfl
    · exact dispatch_scan_eq_none x ws h
  · subst hws
    unfold wl_pointer_button
    rw [if_neg (by simp), dispatch_scan_skip x pre _ hpre, dispatch_scan_hit x w rest hw]

/-- Witness for C2: a release at x=12 does nothing; a press at x=12
lands on the taskbar button and activates its window. -/
theorem C2_pointer_button_dispatch_witness :
    wl_pointer_button WL_POINTER_BUTTON_STATE_RELEASED 12
        [demoClockWidget, demoEditorWidget] = none ∧
    wl_pointer_button WL_POINTER_BUTTON_STATE_PRESSED 12
        [demoClockWidget, demoEditorWidget] =
      some (Action.activate editorWindow) := by
  constructor
  · exact (C2_pointer_button_dispatch WL_POINTER_BUTTON_STATE_RELEASED 12
      [demoClockWidget, demoEditorWidget]).1 (by decide)
  · exact (C2_pointer_button_dispatch WL_POINTER_BUTTON_STATE_PRESSED 12
      [demoClockWidget, demoEditorWidget]).2.2 [demoClockWidget] demoEditorWidget []
      rfl (by decide) (by decide)

/-- A concrete configured panel (width 800, height 30). -/
def examplePanel : PanelSt := ⟨true, 800, 30, some ['T', 'S', 'C'], [], []⟩

/-- Claim C4: the code places the 1-pixel separator rectangle at
`y = panel_height`, so the rectangle `[height, height+1)` lies entirely
OUTSIDE the panel's vertical extent `[0, panel_height)` — evaluated here
at panel height 30: the rectangle starts at y = 30 and does not fit
within height 30.  The spec's separator "along the panel's lower edge"
would require y = height - 1. -/
theorem C4_separator_outside_panel :
    (separator_rect examplePanel).y = 30 ∧
    (separator_rect examplePanel).h = 1 ∧
    ¬ ((separator_rect examplePanel).y + (separator_rect examplePanel).h
        ≤ (examplePanel.height : Int)) := by
  decide

/-- Claim C6: the taskbar label is the title when present, else the
app-id when present, else the literal "?". -/
theorem C6_label_fallback (t : Toplevel) :
    (∀ s, t.title = some s → toplevel_label t = s) ∧
    (t.title = none → ∀ s, t.app_id = some s → toplevel_label t = s) ∧
    (t.title = none → t.app_id = none → toplevel_label t = "?") := by
  cases t with
  | mk ti ai ac =>
    refine ⟨fun s hs => ?_, fun h1 s h2 => ?_, fun h1 h2 => ?_⟩
    · subst hs; rfl
    · subst h1; subst h2; rfl
    · subst h1; subst h2; rfl

/-- Witness for C6: all three fallback cases at concrete windows. -/
theorem C6_label_fallback_witness :
    toplevel_label ⟨some "A", some "B", false⟩ = "A" ∧
    toplevel_label ⟨none, some "B", false⟩ = "B" ∧
    toplevel_label ⟨none, none, false⟩ = "?" :=
  ⟨(C6_label_fallback _).1 "A" rfl, (C6_label_fallback _).2.1 rfl "B" rfl,
    (C6_label_fallback _).2.2 rfl rfl⟩

/-- Claim C7: a state event recomputes the active flag from scratch:
afterwards it is true iff the activated flag is in the delivered set,
and the result is independent of the previous flag value. -/
theorem C7_state_recompute (t : Toplevel) (st : List Nat) :
    ((handle_toplevel_state t st).active = true ↔ ZWLR_STATE_ACTIVATED ∈ st) ∧
    (∀ t' : Toplevel,
      (handle_toplevel_state t st).active = (handle_toplevel_state t' st).active) := by
  constructor
  · have h := state_fold_iff st false
    simpa [handle_toplevel_state] using h
  · intro t'; rfl

/-- Witness for C7: an active window with flags {0, 3} delivered becomes
inactive; an inactive one with flags {0, 2} delivered becomes active. -/
theorem C7_state_recompute_witness :
    (handle_toplevel_state ⟨none, none, true⟩ [0, 3]).active = false ∧
    (handle_toplevel_state ⟨none, none, false⟩ [0, 2]).active = true := by
  constructor
  · have h := (C7_state_recompute ⟨none, none, true⟩ [0, 3]).1
    exact Bool.eq_false_iff.mpr fun hx =>
      (by decide : ¬ ZWLR_STATE_ACTIVATED ∈ ([0, 3] : List Nat)) (h.mp hx)
  · exact (C7_state_recompute ⟨none, none, false⟩ [0, 2]).1.mpr (by decide)

/-- Claim C8: the minute-tick timer is armed iff the panel-item string
contains 'C'; when armed, the first absolute expiry is the current
seconds rounded down to the minute plus 60 — i.e. the start of the next
wall-clock minute — and the repeat interval is 60 seconds. -/
theorem C8_clock_timer (items : Option (List Char)) (now : Int) :
    ((arm_clock_timer items now).isSome = true ↔
      ∃ s, items = some s ∧ 'C' ∈ s) ∧
    (∀ ts, arm_clock_timer items now = some ts →
      ts.it_interval_sec = 60 ∧
      ts.it_value_sec = now - now.tmod 60 + 60 ∧
      (0 ≤ now →
        ts.it_value_sec = 60 * (now / 60) + 60 ∧
        now < ts.it_value_sec ∧ ts.it_value_sec ≤ now + 60)) := by
  cases items with
  | none =>
    constructor
    · simp [arm_clock_timer]
    · intro ts h; simp [arm_clock_timer] at h
  | some s =>
    by_cases hc : 'C' ∈ s
    · constructor
      · simp only [arm_clock_timer, if_pos hc, Option.isSome_some, true_iff]
        exact ⟨s, rfl, hc⟩
      · intro ts h
        simp only [arm_clock_timer, if_pos hc, Option.some.injEq] at h
        subst h
        refine ⟨rfl, rfl, fun hn => ?_⟩
        have hv : now.tmod 60 = now % 60 := Int.tmod_eq_emod hn (by decide)
        dsimp only
        rw [hv]
        omega
    · constructor
      · simp only [arm_clock_timer, if_neg hc, Option.isSome_none,
          Bool.false_eq_true, false_iff]
        rintro ⟨s2, hs2, hc2⟩
        rw [Option.some.injEq] at hs2
        subst hs2
        exact hc hc2
      · intro ts h
        simp [arm_clock_timer, if_neg hc] at h

/-- Witness for C8: with items "TSC" at t = 1000 s the timer is armed
with first expiry 1020 (the next minute boundary); with items "TS" it is
not armed. -/
theorem C8_clock_timer_witness :
    (arm_clock_timer (some ['T', 'S', 'C']) 1000).isSome = true ∧
    (arm_clock_timer (some ['T', 'S']) 1000).isSome = false ∧
    arm_clock_timer (some ['T', 'S', 'C']) 1000 = some ⟨60, 1020⟩ := by
  refine ⟨(C8_clock_timer (some ['T', 'S', 'C']) 1000).1.mpr
    ⟨['T', 'S', 'C'], rfl, by decide⟩, ?_, by decide⟩
  have h := (C8_clock_timer (some ['T', 'S']) 1000).1
  refine Bool.eq_false_iff.mpr fun hx => ?_
  obtain ⟨s, hs, hcs⟩ := h.mp hx
  rw [Option.some.injEq] at hs
  subst hs
  exact (by decide : ¬ 'C' ∈ (['T', 'S'] : List Char)) hcs

/-- Claim C10: when the panel is not running or has zero width or
height, a render request changes nothing (widget list and displayed
surface included), and a press against an empty widget list invokes no
action. -/
theorem C10_render_frame_guard (m : String → Nat) (clockStr : String)
    (p : PanelSt) (h : p.run_display = false ∨ p.width = 0 ∨ p.height = 0) :
    render_frame m clockStr p = p ∧
    (∀ state x, wl_pointer_button state x ([] : List Widget) = none) := by
  constructor
  · unfold render_frame
    rw [if_pos h]
  · intro state x
    unfold wl_pointer_button
    split <;> rfl

/-- Witness for C10: a render on a zero-width panel is the identity and
an early press does nothing. -/
theorem render_items_T (m : String → Nat) (clockStr : String) (tops : List Toplevel)
    (sw : Int) (rest : List Char) (x : Int) :
    render_items m clockStr tops sw ('T' :: rest) x =
      (render_taskbar m tops x).1 ++
        render_items m clockStr tops sw rest (x + (render_taskbar m tops x).2) := by
  simp [render_items]

theorem render_items_C (m : String → Nat) (clockStr : String) (tops : List Toplevel)
    (sw : Int) (rest : List Char) (x : Int) :
    render_items m clockStr tops sw ('C' :: rest) x =
      (render_clock m clockStr x).1 ++
        render_items m clockStr tops sw rest (x + (render_clock m clockStr x).2) := by
  simp [render_items]

theorem render_items_S (m : String → Nat) (clockStr : String) (tops : List Toplevel)
    (sw : Int) (rest : List Char) (x : Int) :
    render_items m clockStr tops sw ('S' :: rest) x =
      render_items m clockStr tops sw rest (x + sw) := by
  simp [render_items]

theorem render_items_other (m : String → Nat) (clockStr : String)
    (tops : List Toplevel) (sw : Int) (c : Char) (rest : List Char) (x : Int)
    (hT : c ≠ 'T') (hC : c ≠ 'C') (hS : c ≠ 'S') :
    render_items m clockStr tops sw (c :: rest) x =
      render_items m clockStr tops sw rest x := by
  simp [render_items, hT, hC, hS]

theorem render_items_nil (m : String → Nat) (clockStr : String)
    (tops : List Toplevel) (sw : Int) (x : Int) :
    render_items m clockStr tops sw [] x = [] := rfl

theorem render_items_bounds_pairwise (m : String → Nat) (clockStr : String)
    (tops : List Toplevel) (sw : Int) (hsw : 0 ≤ sw) :
    ∀ (items : List Char) (x : Int),
      (∀ w ∈ render_items m clockStr tops sw items x, x ≤ w.x ∧ 0 ≤ w.width) ∧
      List.Pairwise (fun a b => a.x + a.width ≤ b.x)
        (render_items m clockStr tops sw items x) := by
  intro items
  induction items with
  | nil =>
    intro x
    exact ⟨fun w hw => absurd hw (List.not_mem_nil w), List.Pairwise.nil⟩
  | cons c rest ih =>
    intro x
    have hp : (0 : Int) ≤ BUTTON_PADDING := by decide
    by_cases hT : c = 'T'
    · subst hT
      rw [render_items_T]
      have hgo := render_taskbar_go_bounds m tops (x + BUTTON_PADDING)
      have hpw := render_taskbar_go_pairwise m tops (x + BUTTON_PADDING)
      have hw2 : (render_taskbar m tops x).2 =
          (render_taskbar_go m tops (x + BUTTON_PADDING)).2 - x := rfl
      have hw1 : (render_taskbar m tops x).1 =
          (render_taskbar_go m tops (x + BUTTON_PADDING)).1 := rfl
      obtain ⟨ihm, ihp⟩ := ih (x + (render_taskbar m tops x).2)
      constructor
      · intro w hw
        rcases List.mem_append.mp hw with h | h
        · rw [hw1] at h
          obtain ⟨h1, h2, _⟩ := hgo.1 w h
          exact ⟨by omega, h2⟩
        · obtain ⟨h1, h2⟩ := ihm w h
          have hge := hgo.2
          exact ⟨by omega, h2⟩
      · rw [List.pairwise_append]
        refine ⟨by rw [hw1]; exact hpw, ihp, ?_⟩
        intro a ha b hb
        rw [hw1] at ha
        obtain ⟨_, _, h3⟩ := hgo.1 a ha
        have hbx := (ihm b hb).1
        omega
    · by_cases hC : c = 'C'
      · subst hC
        rw [render_items_C]
        obtain ⟨ihm, ihp⟩ := ih (x + (render_clock m clockStr x).2)
        have hcw : (render_clock m clockStr x).2 =
            (m clockStr : Int) + 2 * BUTTON_PADDING := rfl
        have hcl : (render_clock m clockStr x).1 =
            [⟨x, (m clockStr : Int) + 2 * BUTTON_PADDING, none⟩] := rfl
        constructor
        · intro w hw
          rcases List.mem_append.mp hw with h | h
          · rw [hcl, List.mem_singleton] at h
            subst h
            refine ⟨le_refl x, ?_⟩
            dsimp only
            omega
          · obtain ⟨h1, h2⟩ := ihm w h
            exact ⟨by omega, h2⟩
        · rw [List.pairwise_append]
          refine ⟨by rw [hcl]; exact List.pairwise_singleton _ _, ihp, ?_⟩
          intro a ha b hb
          rw [hcl, List.mem_singleton] at ha
          subst ha
          have hbx := (ihm b hb).1
          dsimp only
          omega
      · by_cases hS2 : c = 'S'
        · subst hS2
          rw [render_items_S]
          obtain ⟨ihm, ihp⟩ := ih (x + sw)
          exact ⟨fun w hw =>
            ⟨by have := (ihm w hw).1; omega, (ihm w hw).2⟩, ihp⟩
        · rw [render_items_other m clockStr tops sw c rest x hT hC hS2]
          exact ih x

/-- Claim C5: for every tracked window in registry order, the taskbar
pass produces a button of width min(label-width + 2*padding, 200) backed
by that window, and consecutive buttons are separated by a gap of
exactly the padding constant. -/
theorem C5_taskbar_buttons (m : String → Nat) (tops : List Toplevel)
    (start_x : Int) :
    ((render_taskbar m tops start_x).1.map Widget.width =
      tops.map (fun t =>
        min ((m (toplevel_label t) : Int) + 2 * BUTTON_PADDING) BUTTON_MAX_WIDTH)) ∧
    ((render_taskbar m tops start_x).1.map Widget.toplevel = tops.map some) ∧
    BUTTON_MAX_WIDTH = 200 ∧
    List.Chain' (fun a b => b.x = a.x + a.width + BUTTON_PADDING)
      (render_taskbar m tops start_x).1 := by
  refine ⟨?_, ?_, rfl, ?_⟩
  · unfold render_taskbar
    dsimp only
    rw [render_taskbar_go_widths]
    exact List.map_congr_left fun t _ => button_width_eq_min m t
  · unfold render_taskbar
    dsimp only
    exact render_taskbar_go_toplevels m tops _
  · unfold render_taskbar
    dsimp only
    exact render_taskbar_go_chain m tops _

/-- Witness for C5: two windows measured at 50 px produce buttons of
width 66 = 50 + 2*8 (uncapped since 66 ≤ 200). -/
theorem C5_taskbar_buttons_witness :
    (render_taskbar (fun _ => 50) [editorWindow, ⟨none, some "xterm", true⟩] 0).1.map
      Widget.width = [66, 66] := by
  have h := (C5_taskbar_buttons (fun _ => 50)
    [editorWindow, ⟨none, some "xterm", true⟩] 0).1
  rw [h]
  decide

/-- Claim C1: when the item string contains at least one 'S', the spacer
width is computed once per pass as max(0, panel_width minus the sum of
the natural widths of all 'T' and 'C' items in the string), and every
occurrence of 'S' advances the layout cursor by that same full amount. -/
theorem C1_spacer_width (m : String → Nat) (clockStr : String)
    (tops : List Toplevel) (items : List Char) (panel_width : Nat)
    (hS : 'S' ∈ items) :
    spacer_width m clockStr tops items panel_width =
      max 0 ((panel_width : Int) -
        ((items.filter fun c => c == 'T' || c == 'C').map
          (natural_item_width m clockStr tops)).sum) ∧
    (∀ pre rest x, items = pre ++ 'S' :: rest →
      render_items m clockStr tops (spacer_width m clockStr tops items panel_width)
          ('S' :: rest) x =
        render_items m clockStr tops (spacer_width m clockStr tops items panel_width)
          rest (x + spacer_width m clockStr tops items panel_width)) := by
  constructor
  · rw [spacer_width_eq m clockStr tops items panel_width hS,
      natural_width_filter_sum m clockStr tops items]
  · intro pre rest x _
    exact render_items_S m clockStr tops _ rest x

/-- Witness for C1: with one window measured at 50 px, items "TSC" and
panel width 800 the spacer is 652 = 800 - 82 - 66, and laying out the
'S' at cursor 82 continues at cursor 82 + 652. -/
theorem C1_spacer_width_witness :
    spacer_width (fun _ => 50) "12:34" [editorWindow] ['T', 'S', 'C'] 800 = 652 ∧
    render_items (fun _ => 50) "12:34" [editorWindow] 652 ['S', 'C'] 82 =
      render_items (fun _ => 50) "12:34" [editorWindow] 652 ['C'] (82 + 652) := by
  have h := C1_spacer_width (fun _ => 50) "12:34" [editorWindow] ['T', 'S', 'C']
    800 (by decide)
  constructor
  · rw [h.1]
    decide
  · have hsw : spacer_width (fun _ => 50) "12:34" [editorWindow] ['T', 'S', 'C']
        800 = 652 := by decide
    have h2 := h.2 ['T'] ['C'] 82 rfl
    rw [hsw] at h2
    exact h2

/-- Claim C9: after a render pass the widget list is ordered
left-to-right with non-decreasing x offsets and pairwise non-overlapping
[x, x+width) intervals, and it is rebuilt from scratch: the result does
not depend on the previous pass's widget list. -/
theorem C9_widget_list_invariant (m : String → Nat) (clockStr : String)
    (p : PanelSt) :
    List.Pairwise (fun a b => a.x ≤ b.x ∧ a.x + a.width ≤ b.x)
      (render_to_cairo_st m clockStr p).widgets ∧
    (∀ q : PanelSt, q.panel_items = p.panel_items → q.toplevels = p.toplevels →
      q.width = p.width →
      (render_to_cairo_st m clockStr q).widgets =
        (render_to_cairo_st m clockStr p).widgets) := by
  constructor
  · show List.Pairwise _
      (render_to_cairo_widgets m clockStr p.panel_items p.toplevels p.width)
    cases hpi : p.panel_items with
    | none => exact List.Pairwise.nil
    | some items =>
      have hsw := spacer_width_nonneg m clockStr p.toplevels items p.width
      obtain ⟨hm, hpw⟩ :=
        render_items_bounds_pairwise m clockStr p.toplevels _ hsw items 0
      refine List.Pairwise.imp_of_mem ?_ hpw
      intro a b ha hb hab
      exact ⟨by have := (hm a ha).2; omega, hab⟩
  · intro q h1 h2 h3
    show render_to_cairo_widgets m clockStr q.panel_items q.toplevels q.width =
      render_to_cairo_widgets m clockStr p.panel_items p.toplevels p.width
    rw [h1, h2, h3]

/-- Witness for C9: the rebuilt widget list is the same whether the
previous pass left widgets behind or not. -/
theorem C9_widget_list_invariant_witness :
    (render_to_cairo_st (fun _ => 50) "12:34"
        ⟨true, 800, 30, some ['T', 'S', 'C'], [editorWindow], [⟨3, 3, none⟩]⟩).widgets =
      (render_to_cairo_st (fun _ => 50) "12:34"
        ⟨true, 800, 30, some ['T', 'S', 'C'], [editorWindow], []⟩).widgets :=
  (C9_widget_list_invariant (fun _ => 50) "12:34"
    ⟨true, 800, 30, some ['T', 'S', 'C'], [editorWindow], []⟩).2
    ⟨true, 800, 30, some ['T', 'S', 'C'], [editorWindow], [⟨3, 3, none⟩]⟩ rfl rfl rfl

/-- Counterexample to C3 as stated: at a concrete measure (every string
50 px wide) the pass on "TSC" with one Editor window and width 800
produces exactly two widgets — so no separate Spacer widget exists — and
no produced widget has its right edge at 800 - padding = 792, so there
is no "Clock widget whose right edge is at 800 minus the padding
constant" (the clock widget's right edge is at 800). -/
theorem C3_counterexample :
    (render_to_cairo_widgets (fun _ => 50) "12:34" (some ['T', 'S', 'C'])
        [editorWindow] 800).length = 2 ∧
    ∀ w ∈ render_to_cairo_widgets (fun _ => 50) "12:34" (some ['T', 'S', 'C'])
        [editorWindow] 800,
      w.x + w.width ≠ 800 - BUTTON_PADDING := by
  decide

/-- Claim C3 (amended): with panel_items "TSC", one TrackedWindow titled
"Editor", and panel width 800 (the natural widths fitting within 800),
one layout pass produces exactly two widgets: the Editor taskbar button
at x = 8, and the clock widget placed after the spacer gap that fills
the remaining space, with the clock widget's right edge (x + width) at
800 and the clock text ending at 800 minus the padding constant.  No
widget is emitted for the spacer itself. -/
theorem C3_layout_scenario (m : String → Nat) (clockStr : String)
    (hfit : taskbar_natural_width m [editorWindow] +
      clock_natural_width m clockStr ≤ 800) :
    render_to_cairo_widgets m clockStr (some ['T', 'S', 'C']) [editorWindow] 800 =
      [⟨8, button_width m editorWindow, some editorWindow⟩,
       ⟨800 - clock_natural_width m clockStr, clock_natural_width m clockStr,
         none⟩] ∧
    (800 - clock_natural_width m clockStr) + clock_natural_width m clockStr =
      (800 : Int) ∧
    clock_text_x (800 - clock_natural_width m clockStr) + (m clockStr : Int) =
      800 - BUTTON_PADDING := by
  have hp : BUTTON_PADDING = (8 : Int) := rfl
  have hC : clock_natural_width m clockStr =
      (m clockStr : Int) + 2 * BUTTON_PADDING := rfl
  have hT : taskbar_natural_width m [editorWindow] =
      BUTTON_PADDING + (button_width m editorWindow + BUTTON_PADDING) := by
    simp [taskbar_natural_width]
  have hmap : ((['T', 'S', 'C'] : List Char).map
      (natural_item_width m clockStr [editorWindow])).sum =
      taskbar_natural_width m [editorWindow] + clock_natural_width m clockStr := by
    simp [natural_item_width]
  have hsw : spacer_width m clockStr [editorWindow] ['T', 'S', 'C'] 800 =
      800 - (taskbar_natural_width m [editorWindow] +
        clock_natural_width m clockStr) := by
    rw [spacer_width_eq m clockStr [editorWindow] ['T', 'S', 'C'] 800 (by decide),
      hmap, max_eq_right (by omega)]
    omega
  refine ⟨?_, by omega, ?_⟩
  · show render_items m clockStr [editorWindow]
      (spacer_width m clockStr [editorWindow] ['T', 'S', 'C'] 800) ['T', 'S', 'C']
        0 = _
    rw [hsw, render_items_T, render_items_S, render_items_C, render_items_nil]
    have hrt1 : (render_taskbar m [editorWindow] 0).1 =
        [⟨0 + BUTTON_PADDING, button_width m editorWindow, some editorWindow⟩] :=
      rfl
    have hrt2 : (render_taskbar m [editorWindow] 0).2 =
        0 + BUTTON_PADDING + button_width m editorWindow + BUTTON_PADDING - 0 :=
      rfl
    have hrc : ∀ y : Int, (render_clock m clockStr y).1 =
        [⟨y, (m clockStr : Int) + 2 * BUTTON_PADDING, none⟩] := fun y => rfl
    rw [hrt1, hrt2, hrc]
    simp only [List.singleton_append, List.cons_append, List.nil_append,
      List.append_nil, List.cons.injEq, Widget.mk.injEq, and_true]
    omega
  · simp only [clock_text_x]
    omega

/-- Witness for C3 (amended): at measure 50 px the two produced widgets
are the Editor button at x = 8 (width 66) and the clock at x = 734
(width 66), whose right edge is 800. -/
theorem C3_layout_scenario_witness :
    render_to_cairo_widgets (fun _ => 50) "12:34" (some ['T', 'S', 'C'])
        [editorWindow] 800 =
      [⟨8, 66, some editorWindow⟩, ⟨734, 66, none⟩] := by
  have h := C3_layout_scenario (fun _ => 50) "12:34" (by decide)
  rw [h.1]
  decide

theorem C10_render_frame_guard_witness :
    render_frame (fun _ => 0) "" unconfiguredPanel = unconfiguredPanel ∧
    wl_pointer_button WL_POINTER_BUTTON_STATE_PRESSED 3 [] = none := by
  have h := C10_render_frame_guard (fun _ => 0) "" unconfiguredPanel
    (Or.inr (Or.inl rfl))
  exact ⟨h.1, h.2 WL_POINTER_BUTTON_STATE_PRESSED 3⟩

end T2play
